import Mathlib

/-!
Verification of the cosmo-view UserManagement permission engine.

Shallow embedding of the TypeScript sources:
  apps/web/src/contexts/UserManagement/domain/types.ts        (data model)
  apps/web/src/contexts/UserManagement/domain/permissions.ts  (PermissionService)
  the role service (RoleService) and domain services (role-binding updates).

Machine times (JavaScript `Date` values) are modelled as integers; an
optional field of the TypeScript interfaces is an `Option`; JavaScript
string truthiness is modelled where the source relies on it (a present
string is truthy iff it is nonempty).  Each JavaScript evaluation of
`new Date()` is one sample of an explicit clock `Nat → Int` indexed by
the order in which the samples are taken.
-/

set_option autoImplicit false

namespace Cosmo

/-- ResourceType enum from types.ts. -/
inductive ResourceType
| user | project | document | organization | role | permission | billing | audit
deriving DecidableEq, Repr

/-- ActionType enum from types.ts (`export` renamed `exportData`: keyword). -/
inductive ActionType
| create | read | update | delete | manage | admin | invite
| assignRole | revokeRole | viewAudit | exportData | archive | restore
deriving DecidableEq, Repr

/-- UserStatus enum from types.ts. -/
inductive UserStatus
| active | inactive | pending | suspended
deriving DecidableEq, Repr

/-- RoleType enum from types.ts. -/
inductive RoleType
| system | predefined | custom
deriving DecidableEq, Repr

/-- PermissionCondition from types.ts; the `type` is kept as a string so the
`default` branch of the condition evaluator is expressible. -/
structure PermissionCondition where
  type : String
  value : Option String := none
  operator : Option String := none
deriving DecidableEq, Repr

/-- BindingCondition from types.ts. -/
structure BindingCondition where
  type : String
  value : Option String := none
deriving DecidableEq, Repr

/-- Permission from types.ts. -/
structure Permission where
  id : String
  name : String
  description : String
  resource : ResourceType
  action : ActionType
  conditions : Option (List PermissionCondition) := none
deriving DecidableEq, Repr

/-- RoleBinding from types.ts; `expiresAt` is a time (integer), `createdAt`
is kept as the opaque ISO string it is in the source. -/
structure RoleBinding where
  id : String
  roleId : String
  roleName : String
  resourceType : Option ResourceType := none
  resourceId : Option String := none
  conditions : Option (List BindingCondition) := none
  expiresAt : Option Int := none
  createdAt : String := ""
  assignedBy : String := ""
deriving DecidableEq, Repr

/-- UserProfile from types.ts. -/
structure UserProfile where
  avatar : Option String := none
  bio : Option String := none
  department : Option String := none
  phoneNumber : Option String := none
  location : Option String := none
deriving DecidableEq, Repr

/-- User from types.ts (fields the engine reads). -/
structure User where
  id : String
  email : String := ""
  firstName : String := ""
  lastName : String := ""
  status : UserStatus := UserStatus.active
  profile : Option UserProfile := none
  roleBindings : List RoleBinding
  directPermissions : Option (List Permission) := none
deriving DecidableEq, Repr

/-- PermissionContext from types.ts. -/
structure PermissionContext where
  resourceOwnerId : Option String := none
  department : Option String := none
  organizationId : Option String := none
  ip : Option String := none
  time : Option String := none
deriving DecidableEq, Repr

/-- PermissionCheckRequest from types.ts. -/
structure PermissionCheckRequest where
  userId : String
  permission : String
  resourceType : Option ResourceType := none
  resourceId : Option String := none
  context : Option PermissionContext := none
deriving DecidableEq, Repr

/-- PermissionCheckResponse from types.ts. -/
structure PermissionCheckResponse where
  granted : Bool
  reason : Option String := none
  conditions : Option (List String) := none
deriving DecidableEq, Repr

/-- Role from types.ts. -/
structure Role where
  id : String
  name : String
  description : String
  type : RoleType
  permissions : List Permission
  inheritsFrom : Option (List String) := none
  organizationId : Option String := none
  isSystemRole : Bool
  createdAt : String := ""
  updatedAt : String := ""
  createdBy : Option String := none
deriving DecidableEq, Repr

/-! ### System role ids and names (SYSTEM_ROLES in types.ts) -/

/-- SYSTEM_ROLES.ORGANIZATION_ADMIN.id. -/
def ORGANIZATION_ADMIN_id : String := "roles/organization.admin"

/-- SYSTEM_ROLES.ORGANIZATION_VIEWER.id. -/
def ORGANIZATION_VIEWER_id : String := "roles/organization.viewer"

/-- SYSTEM_ROLES.USER_ADMIN.id. -/
def USER_ADMIN_id : String := "roles/user.admin"

/-- SYSTEM_ROLES.USER_MANAGER.id. -/
def USER_MANAGER_id : String := "roles/user.manager"

/-- SYSTEM_ROLES.USER_VIEWER.id. -/
def USER_VIEWER_id : String := "roles/user.viewer"

/-- SYSTEM_ROLES.PROJECT_OWNER.id. -/
def PROJECT_OWNER_id : String := "roles/project.owner"

/-- SYSTEM_ROLES.PROJECT_EDITOR.id. -/
def PROJECT_EDITOR_id : String := "roles/project.editor"

/-- SYSTEM_ROLES.PROJECT_VIEWER.id. -/
def PROJECT_VIEWER_id : String := "roles/project.viewer"

/-- SYSTEM_ROLES.AUTHENTICATED_USER.id. -/
def AUTHENTICATED_USER_id : String := "roles/authenticated.user"

/-- Object.values(SYSTEM_ROLES) restricted to (id, name), in declaration order. -/
def SYSTEM_ROLES_values : List (String × String) :=
  [ (ORGANIZATION_ADMIN_id, "Organization Administrator"),
    (ORGANIZATION_VIEWER_id, "Organization Viewer"),
    (USER_ADMIN_id, "User Administrator"),
    (USER_MANAGER_id, "User Manager"),
    (USER_VIEWER_id, "User Viewer"),
    (PROJECT_OWNER_id, "Project Owner"),
    (PROJECT_EDITOR_id, "Project Editor"),
    (PROJECT_VIEWER_id, "Project Viewer"),
    (AUTHENTICATED_USER_id, "Authenticated User") ]

/-! ### SYSTEM_PERMISSIONS (permissions.ts), in declaration order -/

/-- SYSTEM_PERMISSIONS entry. -/
def SP_organization_admin : Permission :=
  { id := "organization.admin", name := "Organization Administrator",
    description := "Full administrative access to organization",
    resource := ResourceType.organization, action := ActionType.admin }

/-- SYSTEM_PERMISSIONS entry. -/
def SP_organization_read : Permission :=
  { id := "organization.read", name := "Organization Reader",
    description := "Read access to organization information",
    resource := ResourceType.organization, action := ActionType.read }

/-- SYSTEM_PERMISSIONS entry. -/
def SP_user_create : Permission :=
  { id := "user.create", name := "Create Users",
    description := "Create new users in the system",
    resource := ResourceType.user, action := ActionType.create }

/-- SYSTEM_PERMISSIONS entry. -/
def SP_user_read : Permission :=
  { id := "user.read", name := "Read Users",
    description := "View user information",
    resource := ResourceType.user, action := ActionType.read }

/-- SYSTEM_PERMISSIONS entry. -/
def SP_user_update : Permission :=
  { id := "user.update", name := "Update Users",
    description := "Update user information",
    resource := ResourceType.user, action := ActionType.update }

/-- SYSTEM_PERMISSIONS entry. -/
def SP_user_delete : Permission :=
  { id := "user.delete", name := "Delete Users",
    description := "Delete users from the system",
    resource := ResourceType.user, action := ActionType.delete }

/-- SYSTEM_PERMISSIONS entry. -/
def SP_user_invite : Permission :=
  { id := "user.invite", name := "Invite Users",
    description := "Invite new users to the organization",
    resource := ResourceType.user, action := ActionType.invite }

/-- SYSTEM_PERMISSIONS entry. -/
def SP_user_assignRole : Permission :=
  { id := "user.assignRole", name := "Assign Roles",
    description := "Assign roles to users",
    resource := ResourceType.user, action := ActionType.assignRole }

/-- SYSTEM_PERMISSIONS entry. -/
def SP_user_revokeRole : Permission :=
  { id := "user.revokeRole", name := "Revoke Roles",
    description := "Revoke roles from users",
    resource := ResourceType.user, action := ActionType.revokeRole }

/-- SYSTEM_PERMISSIONS entry. -/
def SP_project_create : Permission :=
  { id := "project.create", name := "Create Projects",
    description := "Create new projects",
    resource := ResourceType.project, action := ActionType.create }

/-- SYSTEM_PERMISSIONS entry. -/
def SP_project_read : Permission :=
  { id := "project.read", name := "Read Projects",
    description := "View project information",
    resource := ResourceType.project, action := ActionType.read }

/-- SYSTEM_PERMISSIONS entry. -/
def SP_project_update : Permission :=
  { id := "project.update", name := "Update Projects",
    description := "Update project information",
    resource := ResourceType.project, action := ActionType.update }

/-- SYSTEM_PERMISSIONS entry. -/
def SP_project_delete : Permission :=
  { id := "project.delete", name := "Delete Projects",
    description := "Delete projects",
    resource := ResourceType.project, action := ActionType.delete }

/-- SYSTEM_PERMISSIONS entry. -/
def SP_project_manage : Permission :=
  { id := "project.manage", name := "Manage Projects",
    description := "Full management access to projects",
    resource := ResourceType.project, action := ActionType.manage }

/-- SYSTEM_PERMISSIONS entry. -/
def SP_role_create : Permission :=
  { id := "role.create", name := "Create Roles",
    description := "Create custom roles",
    resource := ResourceType.role, action := ActionType.create }

/-- SYSTEM_PERMISSIONS entry. -/
def SP_role_read : Permission :=
  { id := "role.read", name := "Read Roles",
    description := "View role information",
    resource := ResourceType.role, action := ActionType.read }

/-- SYSTEM_PERMISSIONS entry. -/
def SP_role_update : Permission :=
  { id := "role.update", name := "Update Roles",
    description := "Update role information",
    resource := ResourceType.role, action := ActionType.update }

/-- SYSTEM_PERMISSIONS entry. -/
def SP_role_delete : Permission :=
  { id := "role.delete", name := "Delete Roles",
    description := "Delete custom roles",
    resource := ResourceType.role, action := ActionType.delete }

/-- SYSTEM_PERMISSIONS entry. -/
def SP_audit_read : Permission :=
  { id := "audit.read", name := "Read Audit Logs",
    description := "View audit logs",
    resource := ResourceType.audit, action := ActionType.viewAudit }

/-- SYSTEM_PERMISSIONS entry. -/
def SP_billing_read : Permission :=
  { id := "billing.read", name := "Read Billing",
    description := "View billing information",
    resource := ResourceType.billing, action := ActionType.read }

/-- SYSTEM_PERMISSIONS entry. -/
def SP_billing_update : Permission :=
  { id := "billing.update", name := "Update Billing",
    description := "Update billing information",
    resource := ResourceType.billing, action := ActionType.update }

/-- Object.values(SYSTEM_PERMISSIONS), in the object's insertion order. -/
def SYSTEM_PERMISSIONS_values : List Permission :=
  [ SP_organization_admin, SP_organization_read,
    SP_user_create, SP_user_read, SP_user_update, SP_user_delete,
    SP_user_invite, SP_user_assignRole, SP_user_revokeRole,
    SP_project_create, SP_project_read, SP_project_update,
    SP_project_delete, SP_project_manage,
    SP_role_create, SP_role_read, SP_role_update, SP_role_delete,
    SP_audit_read, SP_billing_read, SP_billing_update ]

/-! ### PermissionService (permissions.ts) -/

/-- createPermission helper of PermissionService: clones a catalog
definition, attaching `conditions` only when supplied. -/
def createPermission (permissionDef : Permission)
    (conditions : Option (List PermissionCondition) := none) : Permission :=
  { permissionDef with conditions := conditions }

/-- PermissionService.getPermissionsForRole: the resolver's per-role
permission table (the switch statement in permissions.ts). -/
def getPermissionsForRole (roleId : String) : List Permission :=
  if roleId = ORGANIZATION_ADMIN_id then
    [ createPermission SP_organization_admin,
      createPermission SP_user_create,
      createPermission SP_user_read,
      createPermission SP_user_update,
      createPermission SP_user_delete,
      createPermission SP_user_invite,
      createPermission SP_user_assignRole,
      createPermission SP_user_revokeRole,
      createPermission SP_project_create,
      createPermission SP_project_read,
      createPermission SP_project_update,
      createPermission SP_project_delete,
      createPermission SP_project_manage,
      createPermission SP_role_create,
      createPermission SP_role_read,
      createPermission SP_role_update,
      createPermission SP_role_delete,
      createPermission SP_audit_read,
      createPermission SP_billing_read,
      createPermission SP_billing_update ]
  else if roleId = USER_ADMIN_id then
    [ createPermission SP_user_create,
      createPermission SP_user_read,
      createPermission SP_user_update,
      createPermission SP_user_delete,
      createPermission SP_user_invite,
      createPermission SP_user_assignRole,
      createPermission SP_user_revokeRole ]
  else if roleId = USER_MANAGER_id then
    [ createPermission SP_user_read,
      createPermission SP_user_update,
      createPermission SP_user_invite
        (some [{ type := "department_member", value := some "same_department" }]) ]
  else if roleId = USER_VIEWER_id then
    [ createPermission SP_user_read ]
  else if roleId = PROJECT_OWNER_id then
    [ createPermission SP_project_create,
      createPermission SP_project_read,
      createPermission SP_project_update,
      createPermission SP_project_delete,
      createPermission SP_project_manage ]
  else if roleId = PROJECT_EDITOR_id then
    [ createPermission SP_project_read,
      createPermission SP_project_update ]
  else if roleId = PROJECT_VIEWER_id then
    [ createPermission SP_project_read ]
  else if roleId = AUTHENTICATED_USER_id then
    [ createPermission SP_user_read
        (some [{ type := "resource_owner", value := some "self" }]) ]
  else
    []

/-- PermissionService.getRolePermissions with the `new Date()` samples made
explicit: `clock k` is the value of the k-th `new Date()` evaluated during
the traversal (the source evaluates one per binding that has `expiresAt`;
a binding without `expiresAt` short-circuits and samples nothing). -/
def getRolePermissionsClock (clock : Nat → Int) (k : Nat) :
    List RoleBinding → List Permission
  | [] => []
  | binding :: rest =>
    match binding.expiresAt with
    | some t =>
      if t < clock k then
        getRolePermissionsClock clock (k + 1) rest
      else
        getPermissionsForRole binding.roleId ++ getRolePermissionsClock clock (k + 1) rest
    | none =>
      getPermissionsForRole binding.roleId ++ getRolePermissionsClock clock k rest

/-- PermissionService.getRolePermissions when every `new Date()` sample
returns the same instant `now`. -/
def getRolePermissions (now : Int) (roleBindings : List RoleBinding) : List Permission :=
  getRolePermissionsClock (fun _ => now) 0 roleBindings

/-- PermissionService.checkResourceAccess. -/
def checkResourceAccess (user : User) (resourceType : ResourceType)
    (resourceId : String) : Bool :=
  let hasResourceBinding := user.roleBindings.any fun binding =>
    decide (binding.resourceType = some resourceType) &&
      decide (binding.resourceId = some resourceId)
  if hasResourceBinding then
    true
  else
    user.roleBindings.any fun binding =>
      decide (binding.resourceType = none) || decide (binding.resourceType = some resourceType)

/-- PermissionService.checkPermissionConditions: the conjunctive loop over a
permission's conditions, with early return `false` on a failing condition
and on an unrecognized condition type. -/
def checkPermissionConditions (user : User) (conditions : List PermissionCondition)
    (context : Option PermissionContext) : Bool :=
  match conditions with
  | [] => true
  | condition :: rest =>
    if condition.type = "resource_owner" then
      if condition.value = some "self" ∧ context.bind (fun c => c.resourceOwnerId) ≠ some user.id then
        false
      else
        checkPermissionConditions user rest context
    else if condition.type = "department_member" then
      if condition.value = some "same_department" ∧
          context.bind (fun c => c.department) ≠ user.profile.bind (fun p => p.department) then
        false
      else
        checkPermissionConditions user rest context
    else if condition.type = "organization_member" then
      match context.bind (fun c => c.organizationId) with
      | some orgId =>
        if orgId ≠ "" ∧
            ¬ (user.roleBindings.any fun binding =>
              decide (binding.resourceType = some ResourceType.organization) &&
                decide (binding.resourceId = some orgId)) = true then
          false
        else
          checkPermissionConditions user rest context
      | none => checkPermissionConditions user rest context
    else if condition.type = "time_based" then
      checkPermissionConditions user rest context
    else if condition.type = "ip_based" then
      checkPermissionConditions user rest context
    else
      false

/-- The resource-scope guard of the candidate loop in checkPermission: the
scope is checked only when the request carries a (truthy) resourceType and
resourceId, mirroring `if (request.resourceType && request.resourceId)`. -/
def requestScopeOk (user : User) (request : PermissionCheckRequest) : Bool :=
  match request.resourceType, request.resourceId with
  | some rt, some rid =>
    if rid = "" then true else checkResourceAccess user rt rid
  | _, _ => true

/-- The body of the candidate loop in PermissionService.checkPermission:
scans the role-derived candidate permissions in order. -/
def checkPermissionGo (user : User) (request : PermissionCheckRequest) :
    List Permission → PermissionCheckResponse
  | [] => { granted := false, reason := some "Permission not found" }
  | permission :: rest =>
    if permission.name = request.permission then
      if requestScopeOk user request = false then
        checkPermissionGo user request rest
      else -- scope passed (or was not requested)
        match permission.conditions with
        | some conds =>
          if checkPermissionConditions user conds request.context = false then
            checkPermissionGo user request rest
          else
            { granted := true, reason := some "Role-based permission granted" }
        | none => { granted := true, reason := some "Role-based permission granted" }
    else
      checkPermissionGo user request rest

/-- PermissionService.checkPermission with explicit clock samples. -/
def checkPermissionClock (clock : Nat → Int) (user : User)
    (request : PermissionCheckRequest) : PermissionCheckResponse :=
  let directHit : Bool :=
    match user.directPermissions with
    | some perms => perms.any fun permission => decide (permission.name = request.permission)
    | none => false
  if directHit then
    { granted := true, reason := some "Direct permission granted" }
  else
    checkPermissionGo user request (getRolePermissionsClock clock 0 user.roleBindings)

/-- PermissionService.checkPermission when every `new Date()` sample within
the call returns the same instant `now`. -/
def checkPermission (now : Int) (user : User)
    (request : PermissionCheckRequest) : PermissionCheckResponse :=
  checkPermissionClock (fun _ => now) user request

/-- The dedupe step of getEffectivePermissions: keeps the first occurrence
of each permission id (the filter/findIndex idiom of the source). -/
def dedupeByIdAux (seen : List String) : List Permission → List Permission
  | [] => []
  | p :: rest =>
    if seen.contains p.id then
      dedupeByIdAux seen rest
    else
      p :: dedupeByIdAux (p.id :: seen) rest

/-- Deduplicate a permission list by id, keeping first occurrences. -/
def dedupeById (perms : List Permission) : List Permission :=
  dedupeByIdAux [] perms

/-- PermissionService.getEffectivePermissions with explicit clock samples. -/
def getEffectivePermissionsClock (clock : Nat → Int) (user : User) : List Permission :=
  dedupeById
    ((match user.directPermissions with
      | some perms => perms
      | none => []) ++ getRolePermissionsClock clock 0 user.roleBindings)

/-- PermissionService.getEffectivePermissions at a single instant `now`. -/
def getEffectivePermissions (now : Int) (user : User) : List Permission :=
  getEffectivePermissionsClock (fun _ => now) user

/-! ### RoleService (role-service.ts) -/

/-- Character-list version of JavaScript `String.prototype.startsWith`
restricted to what `includes` needs: does `hay` begin with `needle`? -/
def charListBeginsWith : List Char → List Char → Bool
  | _, [] => true
  | [], _ :: _ => false
  | a :: hay, b :: needle => a == b && charListBeginsWith hay needle

/-- Character-list version of JavaScript `String.prototype.includes`. -/
def charListIncludes : List Char → List Char → Bool
  | [], needle => needle.isEmpty
  | a :: hay, needle => charListBeginsWith (a :: hay) needle || charListIncludes hay needle

/-- JavaScript `s.includes(sub)`: substring containment. -/
def strIncludes (s sub : String) : Bool :=
  charListIncludes s.data sub.data

/-- createPermissionFromDef helper of role-service.ts (same shape as
PermissionService.createPermission). -/
def createPermissionFromDef (permissionDef : Permission)
    (conditions : Option (List PermissionCondition) := none) : Permission :=
  { permissionDef with conditions := conditions }

/-- RoleService.getSystemRolePermissions: the catalog's per-role permission
table (the switch statement in role-service.ts). -/
def getSystemRolePermissions (roleId : String) : List Permission :=
  if roleId = ORGANIZATION_ADMIN_id then
    SYSTEM_PERMISSIONS_values.map (fun perm => createPermissionFromDef perm)
  else if roleId = USER_ADMIN_id then
    [ createPermissionFromDef SP_user_create,
      createPermissionFromDef SP_user_read,
      createPermissionFromDef SP_user_update,
      createPermissionFromDef SP_user_delete,
      createPermissionFromDef SP_user_invite,
      createPermissionFromDef SP_user_assignRole,
      createPermissionFromDef SP_user_revokeRole,
      createPermissionFromDef SP_role_read ]
  else if roleId = USER_MANAGER_id then
    [ createPermissionFromDef SP_user_read,
      createPermissionFromDef SP_user_update,
      createPermissionFromDef SP_user_invite
        (some [{ type := "department_member", value := some "same_department" }]) ]
  else if roleId = USER_VIEWER_id then
    [ createPermissionFromDef SP_user_read ]
  else if roleId = PROJECT_OWNER_id then
    [ createPermissionFromDef SP_project_create,
      createPermissionFromDef SP_project_read,
      createPermissionFromDef SP_project_update,
      createPermissionFromDef SP_project_delete,
      createPermissionFromDef SP_project_manage ]
  else if roleId = PROJECT_EDITOR_id then
    [ createPermissionFromDef SP_project_read,
      createPermissionFromDef SP_project_update ]
  else if roleId = PROJECT_VIEWER_id then
    [ createPermissionFromDef SP_project_read ]
  else if roleId = AUTHENTICATED_USER_id then
    [ createPermissionFromDef SP_user_read
        (some [{ type := "resource_owner", value := some "self" }]) ]
  else
    []

/-- The update payload of RoleService.updateCustomRole. -/
structure RoleUpdates where
  name : Option String := none
  description : Option String := none
  permissions : Option (List Permission) := none
deriving DecidableEq, Repr

/-- RoleService.updateCustomRole: throws (modelled as `Except.error`) on a
system role, otherwise returns the merged role with a fresh `updatedAt`.
An absent update field leaves the existing value (object spread). -/
def updateCustomRole (role : Role) (updates : RoleUpdates)
    (nowIso : String) : Except String Role :=
  if role.isSystemRole then
    Except.error "Cannot update system roles"
  else
    Except.ok
      { role with
        name := updates.name.getD role.name,
        description := updates.description.getD role.description,
        permissions := updates.permissions.getD role.permissions,
        updatedAt := nowIso }

/-- RoleService.deleteCustomRole: throws (modelled as `Except.error`) on a
system role, otherwise a no-op. -/
def deleteCustomRole (role : Role) : Except String Unit :=
  if role.isSystemRole then
    Except.error "Cannot delete system roles"
  else
    Except.ok ()

/-- RoleService.canAssignRole. -/
def canAssignRole (assignerRoleIds : List String) (targetRoleId : String) : Bool :=
  if assignerRoleIds.contains ORGANIZATION_ADMIN_id then
    true
  else if assignerRoleIds.contains USER_ADMIN_id then
    ! strIncludes targetRoleId "organization"
  else if assignerRoleIds.contains USER_MANAGER_id then
    decide (targetRoleId = USER_VIEWER_id) || decide (targetRoleId = AUTHENTICATED_USER_id)
  else
    false

/-- The result record of RoleService.validateRolePermissions. -/
structure RoleValidation where
  isValid : Bool
  errors : List String
deriving DecidableEq, Repr

/-- RoleService.validateRolePermissions: accumulates the three validation
errors in source order and is valid iff none fired. -/
def validateRolePermissions (permissions : List Permission)
    (roleType : RoleType) : RoleValidation :=
  let emptyErrors : List String :=
    if permissions.length = 0 then ["Role must have at least one permission"] else []
  let adminPermissions := permissions.filter fun p => decide (p.action = ActionType.admin)
  let specificPermissions := permissions.filter fun p => decide (p.action ≠ ActionType.admin)
  let mixErrors : List String :=
    if adminPermissions.length > 0 ∧ specificPermissions.length > 0 then
      ["Cannot mix admin permissions with specific permissions"]
    else []
  let orgErrors : List String :=
    if roleType = RoleType.custom then
      let orgPermissions := permissions.filter fun p =>
        decide (p.resource = ResourceType.organization) || strIncludes p.name "organization"
      if orgPermissions.length > 0 then
        ["Custom roles cannot have organization-level permissions"]
      else []
    else []
  let errors := emptyErrors ++ mixErrors ++ orgErrors
  { isValid := decide (errors.length = 0), errors := errors }

/-! ### Domain services (services.ts): role-binding mutation -/

/-- BindingAction: the `action` discriminator of UpdateRoleBindingRequest. -/
inductive BindingAction
| add | remove | update
deriving DecidableEq, Repr

/-- CreateRoleBindingRequest from types.ts. -/
structure CreateRoleBindingRequest where
  roleId : String
  resourceType : Option ResourceType := none
  resourceId : Option String := none
  conditions : Option (List BindingCondition) := none
  expiresAt : Option Int := none
deriving DecidableEq, Repr

/-- UpdateRoleBindingRequest from types.ts. -/
structure UpdateRoleBindingRequest where
  id : Option String := none
  roleId : String
  resourceType : Option ResourceType := none
  resourceId : Option String := none
  conditions : Option (List BindingCondition) := none
  expiresAt : Option Int := none
  action : BindingAction
deriving DecidableEq, Repr

/-- getRoleName of services.ts: the system role's display name, or the id
itself for an unknown role. -/
def getRoleName (roleId : String) : String :=
  match SYSTEM_ROLES_values.find? (fun r => decide (r.fst = roleId)) with
  | some r => r.snd
  | none => roleId

/-- A present-but-empty string is falsy in JavaScript: normalize an optional
string the way an `x && { f: x }` spread treats it. -/
def truthyString : Option String → Option String
  | some s => if s = "" then none else some s
  | none => none

/-- createRoleBinding of services.ts; `freshId` stands for generateId() and
`nowIso` for `new Date().toISOString()`. -/
def createRoleBinding (freshId : String) (nowIso : String)
    (request : CreateRoleBindingRequest) (assignedBy : String) : RoleBinding :=
  { id := freshId,
    roleId := request.roleId,
    roleName := getRoleName request.roleId,
    resourceType := request.resourceType,
    resourceId := truthyString request.resourceId,
    conditions := request.conditions,
    expiresAt := request.expiresAt,
    createdAt := nowIso,
    assignedBy := assignedBy }

/-- JavaScript `findIndex` over role bindings by binding id, as an optional
index (the source compares the result with `-1`). -/
def findIndexOfBinding (targetId : String) : List RoleBinding → Option Nat
  | [] => none
  | b :: rest =>
    if b.id = targetId then some 0
    else (findIndexOfBinding targetId rest).map (fun n => n + 1)

/-- One step of the update loop in updateUserRoleBindings of services.ts. -/
def applyBindingUpdate (freshId : String) (nowIso : String) (updatedBy : String)
    (bindings : List RoleBinding) (update : UpdateRoleBindingRequest) : List RoleBinding :=
  match update.action with
  | BindingAction.add =>
    let request : CreateRoleBindingRequest :=
      { roleId := update.roleId,
        resourceType := update.resourceType,
        resourceId := truthyString update.resourceId,
        conditions := update.conditions,
        expiresAt := update.expiresAt }
    bindings ++ [createRoleBinding freshId nowIso request updatedBy]
  | BindingAction.remove =>
    match truthyString update.id with
    | some targetId => bindings.filter fun binding => decide (binding.id ≠ targetId)
    | none =>
      bindings.filter fun binding =>
        decide (binding.roleId ≠ update.roleId) ||
          decide (binding.resourceType ≠ update.resourceType) ||
          decide (binding.resourceId ≠ update.resourceId)
  | BindingAction.update =>
    match truthyString update.id with
    | some targetId =>
      match findIndexOfBinding targetId bindings with
      | some index =>
        match bindings.get? index with
        | some existingBinding =>
          bindings.set index
            { id := existingBinding.id,
              createdAt := existingBinding.createdAt,
              assignedBy := existingBinding.assignedBy,
              roleId := update.roleId,
              roleName := getRoleName update.roleId,
              resourceType := update.resourceType,
              resourceId := update.resourceId,
              conditions := update.conditions,
              expiresAt := update.expiresAt }
        | none => bindings
      | none => bindings
    | none => bindings

/-- The fold of updateUserRoleBindings over the update list; `freshIds k`
and `nowIsos k` are the generateId() and `new Date().toISOString()` values
consumed by the k-th processed `add`. -/
def updateUserRoleBindingsGo (freshIds nowIsos : Nat → String) (updatedBy : String) :
    List UpdateRoleBindingRequest → Nat → List RoleBinding → List RoleBinding
  | [], _, bindings => bindings
  | update :: rest, k, bindings =>
    let next :=
      applyBindingUpdate (freshIds k) (nowIsos k) updatedBy bindings update
    match update.action with
    | BindingAction.add => updateUserRoleBindingsGo freshIds nowIsos updatedBy rest (k + 1) next
    | _ => updateUserRoleBindingsGo freshIds nowIsos updatedBy rest k next

/-- updateUserRoleBindings of services.ts: pure transformation of the
user's role-binding collection. -/
def updateUserRoleBindings (freshIds nowIsos : Nat → String) (user : User)
    (updates : List UpdateRoleBindingRequest) (updatedBy : String) : List RoleBinding :=
  updateUserRoleBindingsGo freshIds nowIsos updatedBy updates 0 user.roleBindings

/-! ### Derived definitions and concrete fixtures used by the theorems -/

/-- The pass/fail verdict of a single iteration of the condition loop:
`checkPermissionConditions` returns true iff every condition passes in this
sense (proved below). -/
def condPasses (user : User) (context : Option PermissionContext)
    (condition : PermissionCondition) : Bool :=
  if condition.type = "resource_owner" then
    ! decide (condition.value = some "self" ∧
        context.bind (fun c => c.resourceOwnerId) ≠ some user.id)
  else if condition.type = "department_member" then
    ! decide (condition.value = some "same_department" ∧
        context.bind (fun c => c.department) ≠ user.profile.bind (fun p => p.department))
  else if condition.type = "organization_member" then
    match context.bind (fun c => c.organizationId) with
    | some orgId =>
      ! decide (orgId ≠ "" ∧
          ¬ (user.roleBindings.any fun binding =>
            decide (binding.resourceType = some ResourceType.organization) &&
              decide (binding.resourceId = some orgId)) = true)
    | none => true
  else if condition.type = "time_based" then true
  else if condition.type = "ip_based" then true
  else false

/-- Scenario A fixture: an unscoped, unconditioned, unexpiring binding of
the user-viewer role. -/
def scenarioABinding : RoleBinding :=
  { id := "binding-1", roleId := USER_VIEWER_id, roleName := "User Viewer",
    createdAt := "2024-01-01", assignedBy := "admin-1" }

/-- Scenario A fixture: a user whose only role binding is `scenarioABinding`. -/
def scenarioAUser : User :=
  { id := "u1", roleBindings := [scenarioABinding] }

/-- C3 fixture: a user-viewer binding that expires exactly at instant 100. -/
def expiryBoundaryBinding : RoleBinding :=
  { id := "binding-exp", roleId := USER_VIEWER_id, roleName := "User Viewer",
    expiresAt := some 100, createdAt := "2024-01-01", assignedBy := "admin-1" }

/-- C3 fixture: a user whose only binding expires exactly at instant 100. -/
def expiryBoundaryUser : User :=
  { id := "u3", roleBindings := [expiryBoundaryBinding] }

/-- C4 fixture: a project-viewer binding scoped to (PROJECT, p1). -/
def projectP1Binding : RoleBinding :=
  { id := "binding-p1", roleId := PROJECT_VIEWER_id, roleName := "Project Viewer",
    resourceType := some ResourceType.project, resourceId := some "p1",
    createdAt := "2024-01-01", assignedBy := "admin-1" }

/-- C4 fixture: a user whose only binding is scoped to (PROJECT, p1). -/
def projectP1User : User :=
  { id := "u4", roleBindings := [projectP1Binding] }

/-- C4 fixture: a request for the project-read candidate on (PROJECT, p2).
The candidate's `name` is used because that is what the loop compares. -/
def projectP2Request : PermissionCheckRequest :=
  { userId := "u4", permission := "Read Projects",
    resourceType := some ResourceType.project, resourceId := some "p2" }

/-- C5 fixture: a system role. -/
def sampleSystemRole : Role :=
  { id := USER_VIEWER_id, name := "User Viewer", description := "View user information",
    type := RoleType.system, permissions := [SP_user_read], isSystemRole := true,
    createdAt := "2024-01-01T00:00:00.000Z", updatedAt := "2024-01-01T00:00:00.000Z" }

/-- C5 fixture: a custom role. -/
def sampleCustomRole : Role :=
  { id := "roles/dept-manager-1700000000000", name := "Department Manager",
    description := "d", type := RoleType.custom, permissions := [SP_user_read],
    isSystemRole := false, createdAt := "2024-01-02", updatedAt := "2024-01-02" }

/-- C9 fixture: a clock that advances between the two `new Date()` samples
of one call (first sample 0, every later sample 10). -/
def advancingClock : Nat → Int :=
  fun n => if n = 0 then 0 else 10

/-- C9 fixture: first of two bindings that both expire at instant 5. -/
def expiresAt5a : RoleBinding :=
  { id := "binding-5a", roleId := USER_VIEWER_id, roleName := "User Viewer",
    expiresAt := some 5, createdAt := "2024-01-01", assignedBy := "admin-1" }

/-- C9 fixture: second of two bindings that both expire at instant 5. -/
def expiresAt5b : RoleBinding :=
  { id := "binding-5b", roleId := USER_VIEWER_id, roleName := "User Viewer",
    expiresAt := some 5, createdAt := "2024-01-01", assignedBy := "admin-1" }

/-- C10 fixture: an existing binding that the update request leaves alone. -/
def c10KeptBinding : RoleBinding :=
  { id := "binding-a", roleId := PROJECT_VIEWER_id, roleName := "Project Viewer",
    createdAt := "t-a", assignedBy := "assigner-a" }

/-- C10 fixture: the existing binding that the update request targets; it
carries a resource scope, conditions and an expiry, all of which the update
must clear. -/
def c10TargetBinding : RoleBinding :=
  { id := "binding-b", roleId := PROJECT_OWNER_id, roleName := "Project Owner",
    resourceType := some ResourceType.project, resourceId := some "p9",
    conditions := some [{ type := "mfa_required" }], expiresAt := some 500,
    createdAt := "t-b", assignedBy := "assigner-b" }

/-- C10 fixture: a user holding the kept and the target binding. -/
def c10User : User :=
  { id := "u10", roleBindings := [c10KeptBinding, c10TargetBinding] }

/-- C10 fixture: an `update` action naming the target binding and supplying
only a role id (every optional field omitted). -/
def c10Update : UpdateRoleBindingRequest :=
  { id := some "binding-b", roleId := USER_VIEWER_id, action := BindingAction.update }

/-! ### Shared helper lemmas -/

/-- An early-return `if c then true else y` over booleans is a disjunction. -/
lemma bool_ite_true_or (c y : Bool) : (if c then true else y) = (c || y) := by
  cases c <;> simp

/-- With a constant clock, the expiry traversal ignores the sample index and
equals a filter of the effective bindings followed by the per-role flatten. -/
lemma getRolePermissionsClock_const (now : Int) (k : Nat) (bs : List RoleBinding) :
    getRolePermissionsClock (fun _ => now) k bs
      = (bs.filter fun b =>
          match b.expiresAt with
          | some t => decide (now ≤ t)
          | none => true).flatMap (fun b => getPermissionsForRole b.roleId) := by
  induction bs generalizing k with
  | nil => rfl
  | cons b rest ih =>
    cases hb : b.expiresAt with
    | none =>
      simp [getRolePermissionsClock, hb, List.filter_cons, ih k]
    | some t =>
      by_cases hlt : t < now
      · have hd : decide (now ≤ t) = false := decide_eq_false (by omega)
        simp [getRolePermissionsClock, hb, if_pos hlt, List.filter_cons, hd, ih (k + 1)]
      · have hd : decide (now ≤ t) = true := decide_eq_true (by omega)
        simp [getRolePermissionsClock, hb, if_neg hlt, List.filter_cons, hd, ih (k + 1)]

/-! ### Claim theorems -/

/-- Claim C1 (code bug): for the Scenario A user — a single binding of
`roles/user.viewer` with no scope, conditions or expiry — the code denies
`checkPermission(user, {permission:"user.read"})` (the loop compares the
request string with the permission's display `name`, "Read Users", not its
id), denies `user.delete` as the claim expects, and grants exactly when the
display name is requested instead. -/
theorem C1_scenarioA_eval :
    (checkPermission 0 scenarioAUser { userId := "u1", permission := "user.read" }).granted
        = false
      ∧ (checkPermission 0 scenarioAUser { userId := "u1", permission := "user.delete" }).granted
        = false
      ∧ checkPermission 0 scenarioAUser { userId := "u1", permission := "Read Users" }
        = { granted := true, reason := some "Role-based permission granted" } := by
  refine ⟨rfl, rfl, rfl⟩

/-- Claim C2, counterexample: for the user-admin role the resolver's table
and the catalog are not equal element for element by permission id — the
catalog additionally lists `role.read`. -/
theorem C2_tables_differ_at_user_admin :
    ¬ ((getPermissionsForRole USER_ADMIN_id).map (fun p => p.id)
        = (getSystemRolePermissions USER_ADMIN_id).map (fun p => p.id)) := by
  decide

/-- Claim C2, amended: the resolver's per-role table equals the catalog's
with `organization.read` removed from the organization-admin row and
`role.read` removed from the user-admin row; every other row is equal
element for element by id, and unknown or custom role ids yield the empty
list from both. -/
theorem C2_amended_table_agreement (roleId : String) :
    ((getPermissionsForRole roleId).map (fun p => p.id)
        = ((getSystemRolePermissions roleId).map (fun p => p.id)).filter
            (fun i => !(decide (roleId = ORGANIZATION_ADMIN_id) && decide (i = "organization.read"))
                && !(decide (roleId = USER_ADMIN_id) && decide (i = "role.read"))))
      ∧ (roleId ∉ [ORGANIZATION_ADMIN_id, USER_ADMIN_id, USER_MANAGER_id, USER_VIEWER_id,
            PROJECT_OWNER_id, PROJECT_EDITOR_id, PROJECT_VIEWER_id, AUTHENTICATED_USER_id] →
          getPermissionsForRole roleId = [] ∧ getSystemRolePermissions roleId = []) := by
  by_cases h1 : roleId = ORGANIZATION_ADMIN_id
  · subst h1; exact ⟨by decide, fun h => absurd (by decide) h⟩
  by_cases h2 : roleId = USER_ADMIN_id
  · subst h2; exact ⟨by decide, fun h => absurd (by decide) h⟩
  by_cases h3 : roleId = USER_MANAGER_id
  · subst h3; exact ⟨by decide, fun h => absurd (by decide) h⟩
  by_cases h4 : roleId = USER_VIEWER_id
  · subst h4; exact ⟨by decide, fun h => absurd (by decide) h⟩
  by_cases h5 : roleId = PROJECT_OWNER_id
  · subst h5; exact ⟨by decide, fun h => absurd (by decide) h⟩
  by_cases h6 : roleId = PROJECT_EDITOR_id
  · subst h6; exact ⟨by decide, fun h => absurd (by decide) h⟩
  by_cases h7 : roleId = PROJECT_VIEWER_id
  · subst h7; exact ⟨by decide, fun h => absurd (by decide) h⟩
  by_cases h8 : roleId = AUTHENTICATED_USER_id
  · subst h8; exact ⟨by decide, fun h => absurd (by decide) h⟩
  refine ⟨?_, fun _ => ⟨?_, ?_⟩⟩
  · simp [getPermissionsForRole, getSystemRolePermissions, h1, h2, h3, h4, h5, h6, h7, h8]
  · simp [getPermissionsForRole, h1, h2, h3, h4, h5, h6, h7, h8]
  · simp [getSystemRolePermissions, h1, h2, h3, h4, h5, h6, h7, h8]

/-- Claim C2 witness: the amended theorem applied at a custom role id. -/
theorem C2_amended_table_agreement_witness :
    getPermissionsForRole "roles/custom-x" = []
      ∧ getSystemRolePermissions "roles/custom-x" = [] :=
  (C2_amended_table_agreement "roles/custom-x").2 (by decide)

/-- Claim C3, counterexample: a binding whose `expiresAt` equals the
evaluation instant still contributes — the code drops a binding only when
its expiry is strictly in the past (`new Date(expiresAt) < new Date()`),
so at the boundary instant the claim's "no longer effective" fails for
both the permission list and the effective-permission set. -/
theorem C3_boundary_binding_still_contributes :
    getRolePermissions 100 [expiryBoundaryBinding]
        = [createPermission SP_user_read]
      ∧ getEffectivePermissions 100 expiryBoundaryUser
        = [createPermission SP_user_read] := by
  refine ⟨rfl, rfl⟩

/-- Claim C3, amended: at a single evaluation instant `now`, a binding
contributes to the role-permission flattening (hence to checkPermission's
candidate list) and to getEffectivePermissions iff its `expiresAt` is unset
or `now ≤ expiresAt`: a strictly past expiry never contributes, and the
result flips just after the expiry instant rather than at it. -/
theorem C3_amended_expiry_boundary (now : Int) (bs : List RoleBinding) (u : User) :
    getRolePermissions now bs
        = (bs.filter fun b =>
            match b.expiresAt with
            | some t => decide (now ≤ t)
            | none => true).flatMap (fun b => getPermissionsForRole b.roleId)
      ∧ getEffectivePermissions now u
        = dedupeById
            ((match u.directPermissions with
              | some perms => perms
              | none => []) ++
              (u.roleBindings.filter fun b =>
                match b.expiresAt with
                | some t => decide (now ≤ t)
                | none => true).flatMap (fun b => getPermissionsForRole b.roleId)) := by
  constructor
  · exact getRolePermissionsClock_const now 0 bs
  · show dedupeById _ = _
    rw [getRolePermissionsClock_const now 0 u.roleBindings]

/-- Claim C9, counterexample: `new Date()` is evaluated afresh inside the
binding loop, so one checkPermission-style traversal does not reuse a
single sample. Two bindings with the same expiry (instant 5) are judged
differently within one call under a clock that advances between the two
samples (0, then 10): the traversal keeps exactly one of them, while a
single reused sample — whichever of the two sampled instants it were —
keeps either both or neither. -/
theorem C9_per_binding_resampling :
    (getRolePermissionsClock advancingClock 0 [expiresAt5a, expiresAt5b]).length = 1
      ∧ (getRolePermissions (advancingClock 0) [expiresAt5a, expiresAt5b]).length = 2
      ∧ (getRolePermissions (advancingClock 1) [expiresAt5a, expiresAt5b]).length = 0 := by
  refine ⟨rfl, rfl, rfl⟩

/-- Claim C9, amended: each expiring binding is compared against the sample
taken at its own loop iteration (the k-th expiring binding against the k-th
`new Date()`), each binding's expiry is judged exactly once per call, and
only when the samples within the call coincide (a constant clock) does the
traversal behave as if "now" had been sampled once. -/
theorem C9_amended_per_sample_semantics (clock : Nat → Int) (k : Nat)
    (b : RoleBinding) (bs : List RoleBinding) (t : Int) :
    (b.expiresAt = some t →
        getRolePermissionsClock clock k (b :: bs)
          = (if t < clock k then [] else getPermissionsForRole b.roleId)
              ++ getRolePermissionsClock clock (k + 1) bs)
      ∧ (b.expiresAt = none →
        getRolePermissionsClock clock k (b :: bs)
          = getPermissionsForRole b.roleId ++ getRolePermissionsClock clock k bs)
      ∧ (∀ now : Int,
        getRolePermissionsClock (fun _ => now) k bs = getRolePermissions now bs) := by
  refine ⟨fun hb => ?_, fun hb => ?_, fun now => ?_⟩
  · by_cases hlt : t < clock k
    · simp [getRolePermissionsClock, hb, if_pos hlt]
    · simp [getRolePermissionsClock, hb, if_neg hlt]
  · simp [getRolePermissionsClock, hb]
  · rw [getRolePermissionsClock_const, getRolePermissions, getRolePermissionsClock_const]

/-- Claim C9 witness: the amended theorem applied to a concrete expiring
binding and a concrete clock. -/
theorem C9_amended_per_sample_semantics_witness :
    getRolePermissionsClock advancingClock 1 [expiresAt5a, expiresAt5b]
      = (if (5 : Int) < advancingClock 1 then [] else getPermissionsForRole USER_VIEWER_id)
          ++ getRolePermissionsClock advancingClock 2 [expiresAt5b] :=
  ((C9_amended_per_sample_semantics advancingClock 1 expiresAt5a [expiresAt5b] 5).1) rfl

/-- Claim C4: when a request carries both a resource type and a (nonempty)
resource id, a role-based grant passes through checkResourceAccess, and
checkResourceAccess holds iff some binding is scoped exactly to the
requested resource, or some binding has no resource type, or some binding
merely shares the requested resource type. -/
theorem C4_resource_scope_compatibility (u : User) (rt : ResourceType) (rid : String) :
    (checkResourceAccess u rt rid = true ↔
        ∃ b ∈ u.roleBindings,
          (b.resourceType = some rt ∧ b.resourceId = some rid) ∨
            b.resourceType = none ∨ b.resourceType = some rt)
      ∧ (∀ (clock : Nat → Int) (req : PermissionCheckRequest),
        req.resourceType = some rt → req.resourceId = some rid → rid ≠ "" →
        (checkPermissionClock clock u req).reason = some "Role-based permission granted" →
        checkResourceAccess u rt rid = true) := by
  have hscope : ∀ req : PermissionCheckRequest,
      req.resourceType = some rt → req.resourceId = some rid → rid ≠ "" →
      requestScopeOk u req = checkResourceAccess u rt rid := by
    intro req hrt hrid hne
    simp only [requestScopeOk, hrt, hrid]
    rw [if_neg hne]
  have haccess : checkResourceAccess u rt rid
      = ((u.roleBindings.any fun binding =>
            decide (binding.resourceType = some rt) && decide (binding.resourceId = some rid))
          || (u.roleBindings.any fun binding =>
            decide (binding.resourceType = none) || decide (binding.resourceType = some rt))) := by
    unfold checkResourceAccess
    exact bool_ite_true_or _ _
  constructor
  · rw [haccess]
    simp only [Bool.or_eq_true, List.any_eq_true, Bool.and_eq_true, decide_eq_true_eq]
    constructor
    · rintro (⟨b, hb, hx⟩ | ⟨b, hb, hx⟩)
      exacts [⟨b, hb, Or.inl hx⟩, ⟨b, hb, Or.inr hx⟩]
    · rintro ⟨b, hb, (hx | hx)⟩
      exacts [Or.inl ⟨b, hb, hx⟩, Or.inr ⟨b, hb, hx⟩]
  · intro clock req hrt hrid hne hgrant
    have hgo : ∀ perms : List Permission,
        (checkPermissionGo u req perms).reason = some "Role-based permission granted" →
        checkResourceAccess u rt rid = true := by
      intro perms
      induction perms with
      | nil =>
        intro h
        rw [checkPermissionGo] at h
        exact absurd h (by decide)
      | cons p rest ih =>
        intro h
        rw [checkPermissionGo] at h
        by_cases hname : p.name = req.permission
        · rw [if_pos hname] at h
          by_cases hfail : requestScopeOk u req = false
          · rw [if_pos hfail] at h
            exact ih h
          · have hok : requestScopeOk u req = true := by
              rcases Bool.eq_false_or_eq_true (requestScopeOk u req) with hr | hr
              · exact hr
              · exact absurd hr hfail
            rw [← hscope req hrt hrid hne]
            exact hok
        · rw [if_neg hname] at h
          exact ih h
    rw [checkPermissionClock] at hgrant
    by_cases hdirect :
        (match u.directPermissions with
          | some perms => perms.any fun permission => decide (permission.name = req.permission)
          | none => false) = true
    · rw [if_pos hdirect] at hgrant
      exact absurd hgrant (by decide)
    · rw [if_neg hdirect] at hgrant
      exact hgo _ hgrant

/-- Claim C4 witness: the theorem's scope clause applied to the user whose
only binding is scoped to (PROJECT, p1) and a granted request on
(PROJECT, p2) — the broad same-resource-type fallback fires. -/
theorem C4_resource_scope_compatibility_witness :
    checkResourceAccess projectP1User ResourceType.project "p2" = true :=
  (C4_resource_scope_compatibility projectP1User ResourceType.project "p2").2
    (fun _ => 0) projectP2Request rfl rfl (by decide) (by decide)

/-- Claim C5: updateCustomRole and deleteCustomRole fail on every role with
`isSystemRole = true` (a thrown error, modelled as `Except.error`, so no
updated role is produced and, the embedding being pure, no state is
touched), and on every role with `isSystemRole = false` neither throws. -/
theorem C5_system_roles_immutable (role : Role) (updates : RoleUpdates) (nowIso : String) :
    (role.isSystemRole = true →
        updateCustomRole role updates nowIso = Except.error "Cannot update system roles"
          ∧ deleteCustomRole role = Except.error "Cannot delete system roles")
      ∧ (role.isSystemRole = false →
        (∃ updated : Role, updateCustomRole role updates nowIso = Except.ok updated)
          ∧ deleteCustomRole role = Except.ok ()) := by
  constructor
  · intro h
    constructor
    · rw [updateCustomRole, if_pos h]
    · rw [deleteCustomRole, if_pos h]
  · intro h
    have h' : ¬ role.isSystemRole = true := by simp [h]
    constructor
    · exact ⟨_, by rw [updateCustomRole, if_neg h']⟩
    · rw [deleteCustomRole, if_neg h']

/-- Claim C5 witness: the theorem applied to a concrete system role and a
concrete custom role. -/
theorem C5_system_roles_immutable_witness :
    updateCustomRole sampleSystemRole { name := some "x" } "2024-02-01"
        = Except.error "Cannot update system roles"
      ∧ deleteCustomRole sampleCustomRole = Except.ok () :=
  ⟨((C5_system_roles_immutable sampleSystemRole { name := some "x" } "2024-02-01").1 rfl).1,
    ((C5_system_roles_immutable sampleCustomRole { name := some "x" } "2024-02-01").2 rfl).2⟩

/-- A filtered list is nonempty iff some element satisfies the predicate. -/
lemma filter_length_pos_iff {α : Type} (l : List α) (p : α → Bool) :
    0 < (l.filter p).length ↔ ∃ x ∈ l, p x = true := by
  rw [List.length_pos]
  constructor
  · intro h
    obtain ⟨x, hx⟩ := List.exists_mem_of_ne_nil _ h
    obtain ⟨hm, hp⟩ := List.mem_filter.mp hx
    exact ⟨x, hm, hp⟩
  · rintro ⟨x, hm, hp⟩ hnil
    have hx : x ∈ l.filter p := List.mem_filter.mpr ⟨hm, hp⟩
    rw [hnil] at hx
    exact absurd hx (List.not_mem_nil x)

/-- Claim C6: the delegation table of canAssignRole — organization admins
may assign anything; otherwise user admins may assign exactly the targets
whose id does not contain "organization"; otherwise user managers may
assign exactly USER_VIEWER or AUTHENTICATED_USER; any assigner set holding
none of those three roles is denied. -/
theorem C6_delegation_table (assignerRoleIds : List String) (targetRoleId : String) :
    (assignerRoleIds.contains ORGANIZATION_ADMIN_id = true →
        canAssignRole assignerRoleIds targetRoleId = true)
      ∧ (assignerRoleIds.contains ORGANIZATION_ADMIN_id = false →
          assignerRoleIds.contains USER_ADMIN_id = true →
        (canAssignRole assignerRoleIds targetRoleId = true ↔
          strIncludes targetRoleId "organization" = false))
      ∧ (assignerRoleIds.contains ORGANIZATION_ADMIN_id = false →
          assignerRoleIds.contains USER_ADMIN_id = false →
          assignerRoleIds.contains USER_MANAGER_id = true →
        (canAssignRole assignerRoleIds targetRoleId = true ↔
          (targetRoleId = USER_VIEWER_id ∨ targetRoleId = AUTHENTICATED_USER_id)))
      ∧ (assignerRoleIds.contains ORGANIZATION_ADMIN_id = false →
          assignerRoleIds.contains USER_ADMIN_id = false →
          assignerRoleIds.contains USER_MANAGER_id = false →
        canAssignRole assignerRoleIds targetRoleId = false) := by
  refine ⟨fun h1 => ?_, fun h1 h2 => ?_, fun h1 h2 h3 => ?_, fun h1 h2 h3 => ?_⟩ <;>
    simp_all [canAssignRole]

/-- Claim C6 witness: the table applied to an organization admin and to a
user manager holding an extra unrelated role. -/
theorem C6_delegation_table_witness :
    canAssignRole [ORGANIZATION_ADMIN_id] USER_ADMIN_id = true
      ∧ canAssignRole ["roles/junk", USER_MANAGER_id] USER_VIEWER_id = true :=
  ⟨(C6_delegation_table [ORGANIZATION_ADMIN_id] USER_ADMIN_id).1 (by decide),
    ((C6_delegation_table ["roles/junk", USER_MANAGER_id] USER_VIEWER_id).2.2.1
      (by decide) (by decide) (by decide)).mpr (Or.inl rfl)⟩

/-- Claim C7: validateRolePermissions (a total function — validation
failures are returned as data, never thrown) is invalid exactly when the
permission list is empty, or it mixes an admin-action permission with a
non-admin-action one, or the role type is CUSTOM and some permission has
the organization resource or an "organization"-containing name; on the
empty list with CUSTOM it returns exactly the single missing-permission
error. -/
theorem C7_validate_role_permissions (permissions : List Permission) (roleType : RoleType) :
    ((validateRolePermissions permissions roleType).isValid = false ↔
        (permissions = []
          ∨ ((∃ p ∈ permissions, p.action = ActionType.admin)
              ∧ (∃ p ∈ permissions, p.action ≠ ActionType.admin))
          ∨ (roleType = RoleType.custom
              ∧ ∃ p ∈ permissions,
                  p.resource = ResourceType.organization
                    ∨ strIncludes p.name "organization" = true)))
      ∧ validateRolePermissions [] RoleType.custom
        = { isValid := false, errors := ["Role must have at least one permission"] } := by
  constructor
  · have key : (validateRolePermissions permissions roleType).isValid = false ↔
        (permissions.length = 0
          ∨ (0 < (permissions.filter fun p => decide (p.action = ActionType.admin)).length
              ∧ 0 < (permissions.filter fun p => decide (p.action ≠ ActionType.admin)).length)
          ∨ (roleType = RoleType.custom
              ∧ 0 < (permissions.filter fun p =>
                  decide (p.resource = ResourceType.organization)
                    || strIncludes p.name "organization").length)) := by
      have hnil : ∀ (c : Prop) (inst : Decidable c) (m : String),
          ((if c then [m] else ([] : List String)) = []) ↔ ¬ c := by
        intro c inst m
        by_cases hc : c <;> simp [hc]
      have hnil3 : ((if roleType = RoleType.custom then
            (if 0 < (permissions.filter fun p =>
                decide (p.resource = ResourceType.organization)
                  || strIncludes p.name "organization").length
              then ["Custom roles cannot have organization-level permissions"]
              else [])
            else ([] : List String)) = []) ↔
          ¬ (roleType = RoleType.custom
            ∧ 0 < (permissions.filter fun p =>
                decide (p.resource = ResourceType.organization)
                  || strIncludes p.name "organization").length) := by
        by_cases hc : roleType = RoleType.custom <;>
          by_cases hd : 0 < (permissions.filter fun p =>
              decide (p.resource = ResourceType.organization)
                || strIncludes p.name "organization").length <;>
          simp [hc, hd]
      simp only [validateRolePermissions, gt_iff_lt]
      rw [decide_eq_false_iff_not, List.length_eq_zero, List.append_eq_nil,
        List.append_eq_nil, hnil, hnil, hnil3]
      tauto
    rw [key]
    simp only [List.length_eq_zero, filter_length_pos_iff, decide_eq_true_eq,
      Bool.or_eq_true]
  · rfl

/-- Claim C7 witness: the characterization applied at the empty permission
list for a custom role. -/
theorem C7_validate_role_permissions_witness :
    (validateRolePermissions [] RoleType.custom).isValid = false :=
  (C7_validate_role_permissions [] RoleType.custom).1.mpr (Or.inl rfl)

/-- The condition loop equals the conjunction of per-condition verdicts. -/
lemma checkPermissionConditions_eq_all (u : User) (ctx : Option PermissionContext)
    (conds : List PermissionCondition) :
    checkPermissionConditions u conds ctx = conds.all (condPasses u ctx) := by
  induction conds with
  | nil => rfl
  | cons c rest ih =>
    by_cases h1 : c.type = "resource_owner"
    · by_cases hc : (c.value = some "self"
          ∧ ctx.bind (fun x => x.resourceOwnerId) ≠ some u.id)
      · simp [checkPermissionConditions, condPasses, h1, hc]
      · simp [checkPermissionConditions, condPasses, h1, hc, ih]
    by_cases h2 : c.type = "department_member"
    · by_cases hc : (c.value = some "same_department"
          ∧ ctx.bind (fun x => x.department) ≠ u.profile.bind (fun p => p.department))
      · simp [checkPermissionConditions, condPasses, h1, h2, hc]
      · simp [checkPermissionConditions, condPasses, h1, h2, hc, ih]
    by_cases h3 : c.type = "organization_member"
    · cases hm : ctx.bind (fun x => x.organizationId) with
      | some orgId =>
        by_cases hc : (orgId ≠ ""
            ∧ ¬ (u.roleBindings.any fun binding =>
              decide (binding.resourceType = some ResourceType.organization) &&
                decide (binding.resourceId = some orgId)) = true)
        · simp [checkPermissionConditions, condPasses, h1, h2, h3, hm, hc]
        · simp [checkPermissionConditions, condPasses, h1, h2, h3, hm, hc, ih]
      | none =>
        simp [checkPermissionConditions, condPasses, h1, h2, h3, hm, ih]
    by_cases h4 : c.type = "time_based"
    · simp [checkPermissionConditions, condPasses, h1, h2, h3, h4, ih]
    by_cases h5 : c.type = "ip_based"
    · simp [checkPermissionConditions, condPasses, h1, h2, h3, h4, h5, ih]
    simp [checkPermissionConditions, condPasses, h1, h2, h3, h4, h5]

/-- Claim C8: condition evaluation is conjunctive — true iff every
condition passes; a resource_owner/"self" condition passes iff the
context's resourceOwnerId equals the user's id; a
department_member/"same_department" condition passes iff the context's
department equals the user's profile department; and any condition whose
type is unrecognized forces the whole evaluation to false. -/
theorem C8_condition_evaluation (u : User) (conds : List PermissionCondition)
    (ctx : Option PermissionContext) :
    (checkPermissionConditions u conds ctx = true ↔
        ∀ c ∈ conds, condPasses u ctx c = true)
      ∧ (∀ c ∈ conds,
          c.type ≠ "resource_owner" → c.type ≠ "department_member" →
          c.type ≠ "organization_member" → c.type ≠ "time_based" → c.type ≠ "ip_based" →
          checkPermissionConditions u conds ctx = false)
      ∧ (∀ c : PermissionCondition, c.type = "resource_owner" → c.value = some "self" →
          (condPasses u ctx c = true ↔
            ctx.bind (fun x => x.resourceOwnerId) = some u.id))
      ∧ (∀ c : PermissionCondition, c.type = "department_member" →
          c.value = some "same_department" →
          (condPasses u ctx c = true ↔
            ctx.bind (fun x => x.department) = u.profile.bind (fun p => p.department))) := by
  refine ⟨?_, ?_, ?_, ?_⟩
  · rw [checkPermissionConditions_eq_all]
    exact List.all_eq_true
  · intro c hc hr1 hr2 hr3 hr4 hr5
    rw [checkPermissionConditions_eq_all]
    have hf : condPasses u ctx c = false := by
      simp [condPasses, hr1, hr2, hr3, hr4, hr5]
    exact List.all_eq_false.mpr ⟨c, hc, by simp [hf]⟩
  · intro c h1 h2
    simp [condPasses, h1, h2]
  · intro c h1 h2
    simp [condPasses, h1, h2]

/-- Claim C8 witness: an unrecognized condition type denies, and the
iff-characterization holds on the empty condition list. -/
theorem C8_condition_evaluation_witness :
    checkPermissionConditions scenarioAUser [{ type := "weird" }] none = false
      ∧ checkPermissionConditions scenarioAUser [] none = true :=
  ⟨(C8_condition_evaluation scenarioAUser [{ type := "weird" }] none).2.1
      { type := "weird" } (by simp) (by decide) (by decide) (by decide) (by decide) (by decide),
    (C8_condition_evaluation scenarioAUser [] none).1.mpr
      (fun c hc => absurd hc (List.not_mem_nil c))⟩

/-- Claim C10: an `update` action whose id matches an existing binding
replaces that binding in place, keeping only id, createdAt and assignedBy
from the original; the roleName is recomputed from the new roleId, and
each optional field (resourceType, resourceId, conditions, expiresAt) of
the result is exactly the request's field — a field omitted from the
request is cleared, not preserved. -/
theorem C10_update_replaces_binding (freshIds nowIsos : Nat → String) (u : User)
    (upd : UpdateRoleBindingRequest) (updatedBy : String) (i : String) (k : Nat)
    (b : RoleBinding) :
    upd.action = BindingAction.update →
    upd.id = some i → i ≠ "" →
    findIndexOfBinding i u.roleBindings = some k →
    u.roleBindings.get? k = some b →
    updateUserRoleBindings freshIds nowIsos u [upd] updatedBy =
      u.roleBindings.set k
        { id := b.id, roleId := upd.roleId, roleName := getRoleName upd.roleId,
          resourceType := upd.resourceType, resourceId := upd.resourceId,
          conditions := upd.conditions, expiresAt := upd.expiresAt,
          createdAt := b.createdAt, assignedBy := b.assignedBy } := by
  intro ha hid hne hfind hget
  rw [updateUserRoleBindings]
  simp only [updateUserRoleBindingsGo, applyBindingUpdate, ha, hid, truthyString,
    if_neg hne, hfind, hget]

/-- Claim C10 witness: the theorem applied to a concrete user whose target
binding carries a scope, conditions and an expiry, all cleared by an update
request that supplies none of them. -/
theorem C10_update_replaces_binding_witness :
    updateUserRoleBindings (fun _ => "fresh") (fun _ => "now") c10User [c10Update] "adm"
      = [c10KeptBinding,
          { id := "binding-b", roleId := USER_VIEWER_id, roleName := "User Viewer",
            resourceType := none, resourceId := none, conditions := none,
            expiresAt := none, createdAt := "t-b", assignedBy := "assigner-b" }] := by
  have h := C10_update_replaces_binding (fun _ => "fresh") (fun _ => "now") c10User
    c10Update "adm" "binding-b" 1 c10TargetBinding rfl rfl (by decide) (by decide) (by decide)
  rw [h]
  rfl

end Cosmo
